import Mathlib

/-!
Verification of the `exponax` reaction presets and visualization utilities.

The Python sources under `src/exponax/` are shallowly embedded below:
floating-point configuration scalars become `ℚ` (every claim here is about
exact configuration values, not rounding), spectral states become functions
from an abstract spectral index type to a scalar field `K` (the sources use
complex scalars; `K` is kept abstract so that every definition stays
executable and can be evaluated at `K = ℚ`), physical states become functions
to a scalar field `R`, and the external FFT routines (`jnp.fft.rfftn` /
`irfftn`) are abstract function parameters.  Fallible constructors return `Except String _`.
Python keyword arguments with defaults are embedded as `Option` parameters
resolved with `Option.getD` against the source's default value.
-/

/-- Record of the arguments each reaction preset passes to the base stepper
constructor (`super().__init__(...)` in the Python sources).  The base stepper
itself (`_base_stepper.py`) is not under `src/`; this record only captures the
call made by the presets, which is in the sources. -/
structure BaseStepperArgs where
  num_spatial_dims : ℕ
  domain_extent : ℚ
  num_points : ℕ
  dt : ℚ
  num_channels : ℕ
  order : ℕ
  num_circle_points : ℕ
  circle_radius : ℚ
deriving Repr, DecidableEq

/-- Configuration fields stored on the `AllenCahn` stepper
(`reaction/_allen_cahn.py`). -/
structure AllenCahn where
  diffusivity : ℚ
  first_order_coefficient : ℚ
  third_order_coefficient : ℚ
  dealiasing_fraction : ℚ
deriving Repr, DecidableEq

/-- `AllenCahn.__init__`: stores the configuration fields and calls the base
stepper constructor with `num_channels=1` and the given quadrature knobs.
Keyword arguments with defaults are `Option` parameters; `none` selects the
source's default (`diffusivity=5e-3`, `first_order_coefficient=1.0`,
`third_order_coefficient=-1.0`, `order=2`, `dealiasing_fraction=1/2`,
`num_circle_points=16`, `circle_radius=1.0`). -/
def AllenCahn.init (num_spatial_dims : ℕ) (domain_extent : ℚ) (num_points : ℕ)
    (dt : ℚ) (diffusivity : Option ℚ) (first_order_coefficient : Option ℚ)
    (third_order_coefficient : Option ℚ) (order : Option ℕ)
    (dealiasing_fraction : Option ℚ) (num_circle_points : Option ℕ)
    (circle_radius : Option ℚ) : AllenCahn × BaseStepperArgs :=
  let diffusivity := diffusivity.getD (5 / 1000)
  let first_order_coefficient := first_order_coefficient.getD 1
  let third_order_coefficient := third_order_coefficient.getD (-1)
  let order := order.getD 2
  let dealiasing_fraction := dealiasing_fraction.getD (1 / 2)
  let num_circle_points := num_circle_points.getD 16
  let circle_radius := circle_radius.getD 1
  (⟨diffusivity, first_order_coefficient, third_order_coefficient,
    dealiasing_fraction⟩,
   ⟨num_spatial_dims, domain_extent, num_points, dt, 1, order,
    num_circle_points, circle_radius⟩)

/-- Configuration fields stored on the `FisherKPP` stepper
(`reaction/_fisher_kpp.py`). -/
structure FisherKPP where
  r : ℚ
  dealiasing_fraction : ℚ
deriving Repr, DecidableEq

/-- `FisherKPP.__init__`: stores `r` and the dealiasing fraction and calls the
base stepper constructor with `num_channels=1`.  Defaults from the source:
`order=2`, `r=1.0`, `dealiasing_fraction=2/3`, `num_circle_points=16`,
`circle_radius=1.0`. -/
def FisherKPP.init (num_spatial_dims : ℕ) (domain_extent : ℚ) (num_points : ℕ)
    (dt : ℚ) (order : Option ℕ) (r : Option ℚ) (dealiasing_fraction : Option ℚ)
    (num_circle_points : Option ℕ) (circle_radius : Option ℚ) :
    FisherKPP × BaseStepperArgs :=
  let order := order.getD 2
  let r := r.getD 1
  let dealiasing_fraction := dealiasing_fraction.getD (2 / 3)
  let num_circle_points := num_circle_points.getD 16
  let circle_radius := circle_radius.getD 1
  (⟨r, dealiasing_fraction⟩,
   ⟨num_spatial_dims, domain_extent, num_points, dt, 1, order,
    num_circle_points, circle_radius⟩)

/-- Configuration fields stored on the `BelousovZhabotinsky` stepper
(`reaction/_belousov_zhabotinsky.py`).  The source stores `diffusivities` as a
Python list indexed only at positions 0, 1, 2; it is embedded as a function on
`Fin 3`. -/
structure BelousovZhabotinsky where
  diffusivities : Fin 3 → ℚ
  dealiasing_fraction : ℚ

/-- `BelousovZhabotinsky.__init__`: stores the diffusivities and dealiasing
fraction and calls the base stepper constructor with `num_channels=3`.
Defaults from the source: `diffusivities=[1e-5, 2e-5, 1e-5]`, `order=2`,
`dealiasing_fraction=1/2`, `num_circle_points=16`, `circle_radius=1.0`. -/
def BelousovZhabotinsky.init (num_spatial_dims : ℕ) (domain_extent : ℚ)
    (num_points : ℕ) (dt : ℚ) (diffusivities : Option (Fin 3 → ℚ))
    (order : Option ℕ) (dealiasing_fraction : Option ℚ)
    (num_circle_points : Option ℕ) (circle_radius : Option ℚ) :
    BelousovZhabotinsky × BaseStepperArgs :=
  let diffusivities := diffusivities.getD ![1 / 100000, 2 / 100000, 1 / 100000]
  let order := order.getD 2
  let dealiasing_fraction := dealiasing_fraction.getD (1 / 2)
  let num_circle_points := num_circle_points.getD 16
  let circle_radius := circle_radius.getD 1
  (⟨diffusivities, dealiasing_fraction⟩,
   ⟨num_spatial_dims, domain_extent, num_points, dt, 3, order,
    num_circle_points, circle_radius⟩)

/-- Configuration of the fixed-three-channel Belousov–Zhabotinsky nonlinear
evaluator (`BelousovZhabotinskyNonlinearFun` in
`reaction/_belousov_zhabotinsky.py`). -/
structure BelousovZhabotinskyNonlinearFun where
  num_spatial_dims : ℕ
  num_points : ℕ
  num_channels : ℕ
  dealiasing_fraction : ℚ
deriving Repr, DecidableEq

/-- `BelousovZhabotinskyNonlinearFun.__init__`: raises `ValueError` when
`num_channels != 3`, otherwise delegates to the base nonlinear-function
constructor.  The base constructor (`nonlin_fun/_base.py`, not under `src/`)
is modelled from the spec as plain field storage that does not fail. -/
def BelousovZhabotinskyNonlinearFun.init (num_spatial_dims : ℕ)
    (num_points : ℕ) (num_channels : ℕ) (dealiasing_fraction : ℚ) :
    Except String BelousovZhabotinskyNonlinearFun :=
  if num_channels ≠ 3 then
    Except.error "Expected num_channels = 3."
  else
    Except.ok ⟨num_spatial_dims, num_points, num_channels, dealiasing_fraction⟩

/-- Modelled from the spec: `build_laplace_operator` lives in `_spectral.py`,
which is not under `src/`.  Per spec §4.1 it raises each axis-aligned component
of the derivative operator to the given even power and sums over the axes, so
`build_laplace_operator D_op 2` is the sum of squared single-axis operators.
The derivative operator's leading axis (one entry per spatial dimension) is a
function on `Fin D`; the remaining spectral axes are an abstract index type
`α`. -/
def build_laplace_operator {D : ℕ} {α : Type} {K : Type} [Field K]
    (derivative_operator : Fin D → α → K) (order : ℕ) : α → K :=
  fun k => ∑ d : Fin D, derivative_operator d k ^ order

/-- `AllenCahn._build_linear_operator`: `diffusivity * laplace +
first_order_coefficient`, pointwise per Fourier mode, with `laplace` the
order-2 Laplace operator built from the derivative operator. -/
def AllenCahn._build_linear_operator {D : ℕ} {α : Type} {K : Type} [Field K]
    (self : AllenCahn) (derivative_operator : Fin D → α → K) : α → K :=
  let laplace := build_laplace_operator derivative_operator 2
  fun k => (self.diffusivity : K) * laplace k + (self.first_order_coefficient : K)

/-- `FisherKPP._build_linear_operator`: `laplace + r`, pointwise per Fourier
mode. -/
def FisherKPP._build_linear_operator {D : ℕ} {α : Type} {K : Type} [Field K]
    (self : FisherKPP) (derivative_operator : Fin D → α → K) : α → K :=
  let laplace := build_laplace_operator derivative_operator 2
  fun k => laplace k + (self.r : K)

/-- `BelousovZhabotinsky._build_linear_operator`: the concatenation along the
channel axis of `diffusivities[c] * laplace` for `c = 0, 1, 2`. -/
def BelousovZhabotinsky._build_linear_operator {D : ℕ} {α : Type} {K : Type}
    [Field K] (self : BelousovZhabotinsky)
    (derivative_operator : Fin D → α → K) : Fin 3 → α → K :=
  let laplace := build_laplace_operator derivative_operator 2
  fun c => match c with
  | 0 => fun k => (self.diffusivities 0 : K) * laplace k
  | 1 => fun k => (self.diffusivities 1 : K) * laplace k
  | 2 => fun k => (self.diffusivities 2 : K) * laplace k

/-- Configuration of the polynomial nonlinear evaluator as handed over by the
presets (`PolynomialNonlinearFun` lives in `nonlin_fun/_polynomial.py`, not
under `src/`; the presets' calls to it are in the sources). -/
structure PolynomialNonlinearFun where
  dealiasing_fraction : ℚ
  coefficients : List ℚ
deriving Repr, DecidableEq

/-- `FisherKPP._build_nonlinear_fun`: a polynomial evaluator with the stored
dealiasing fraction and coefficient list `[0.0, 0.0, -r]`. -/
def FisherKPP._build_nonlinear_fun (self : FisherKPP) : PolynomialNonlinearFun :=
  ⟨self.dealiasing_fraction, [0, 0, -self.r]⟩

/-- `AllenCahn._build_nonlinear_fun`: a polynomial evaluator with the stored
dealiasing fraction and coefficient list
`[0.0, 0.0, 0.0, third_order_coefficient]`. -/
def AllenCahn._build_nonlinear_fun (self : AllenCahn) : PolynomialNonlinearFun :=
  ⟨self.dealiasing_fraction, [0, 0, 0, self.third_order_coefficient]⟩

/-- Modelled from the spec: the pointwise physical-space map realized by the
polynomial nonlinear evaluator (`nonlin_fun/_polynomial.py`, not under
`src/`), `Σ c_i * u^i` for the coefficient list `c`. -/
def polynomialPointwise {R : Type} [Field R] (coefficients : List ℚ) (u : R) : R :=
  (coefficients.enum.map fun p => (p.2 : R) * u ^ p.1).sum

/-- Modelled from the spec: the dealiasing mask built by the base nonlinear
function (`nonlin_fun/_base.py`, not under `src/`).  Per spec §4.2 it is a
binary array that zeroes spectral coefficients whose wavenumber magnitude
exceeds the cutoff fraction of the Nyquist wavenumber `num_points / 2` along
any axis. -/
def dealiasing_mask {K : Type} [Field K] (D : ℕ) (num_points : ℕ)
    (dealiasing_fraction : ℚ) : (Fin D → ℤ) → K :=
  fun k =>
    if ∀ d, ((|k d| : ℤ) : ℚ) ≤ dealiasing_fraction * ((num_points : ℚ) / 2)
    then 1 else 0

/-- Pointwise multiplication of a multi-channel Fourier-space state by a
dealiasing mask (`self.dealiasing_mask * u_hat` in the sources). -/
def apply_dealiasing_mask {C : ℕ} {α : Type} {K : Type} [Field K]
    (mask : α → K) (u_hat : Fin C → α → K) : Fin C → α → K :=
  fun c k => mask k * u_hat c k

/-- `BelousovZhabotinskyNonlinearFun.evaluate`: multiply by the dealiasing
mask, inverse-transform to physical space, apply the pointwise three-channel
reaction map, forward-transform back.  The external FFT routines
(`jnp.fft.irfftn` / `jnp.fft.rfftn`) are abstract parameters, `α` the spectral
index type and `β` the physical index type; the mask, built by the base class
(not under `src/`), is likewise a parameter. -/
def BelousovZhabotinskyNonlinearFun.evaluate {α β : Type} {K R : Type}
    [Field K] [Field R] (dealiasing_mask : α → K) (irfftn : (α → K) → β → R)
    (rfftn : (β → R) → α → K) (u_hat : Fin 3 → α → K) : Fin 3 → α → K :=
  let u_hat_dealiased : Fin 3 → α → K := fun c k => dealiasing_mask k * u_hat c k
  let u : Fin 3 → β → R := fun c => irfftn (u_hat_dealiased c)
  let u_power : Fin 3 → β → R := fun c x =>
    match c with
    | 0 => u 0 x + u 1 x - u 0 x * u 1 x - u 0 x ^ 2
    | 1 => u 2 x - u 1 x - u 0 x * u 1 x
    | 2 => u 0 x - u 2 x
  let u_power_hat : Fin 3 → α → K := fun c => rfftn (u_power c)
  u_power_hat

/-- The pointwise physical-space reaction map of the Belousov–Zhabotinsky
evaluator, channel by channel, exactly as the claim phrases it. -/
def bz_pointwise_map {β : Type} {R : Type} [Field R]
    (u : Fin 3 → β → R) : Fin 3 → β → R :=
  fun c x =>
    match c with
    | 0 => u 0 x + u 1 x - u 0 x * u 1 x - u 0 x ^ 2
    | 1 => u 2 x - u 1 x - u 0 x * u 1 x
    | 2 => u 0 x - u 2 x

/-- The mandatory evaluation sequence required by the spec for every nonlinear
evaluator: dealiasing mask, then inverse transform to physical space, then the
pointwise nonlinear map, then the forward transform back to Fourier space,
with nothing else.  Stated from the spec's words, parameterized by the
pointwise map, to be compared against the evaluators embedded from the
source. -/
def mandatory_sequence {α β : Type} {K R : Type} [Field K] [Field R]
    (pointwise_map : (Fin 3 → β → R) → Fin 3 → β → R) (mask : α → K)
    (irfftn : (α → K) → β → R) (rfftn : (β → R) → α → K)
    (u_hat : Fin 3 → α → K) : Fin 3 → α → K :=
  let dealiased : Fin 3 → α → K := fun c k => mask k * u_hat c k
  let physical : Fin 3 → β → R := fun c => irfftn (dealiased c)
  let mapped : Fin 3 → β → R := pointwise_map physical
  fun c => rfftn (mapped c)

/-- One observable effect of the facet-plot loops in `viz/_plot.py`. -/
inductive FacetEvent : Type
  | index_state : ℕ → FacetEvent
  | remove_axis : ℕ → FacetEvent
  | set_title : ℕ → FacetEvent
deriving Repr, DecidableEq

/-- The body of the loop over the flattened axis grid in
`plot_state_2d_facet` (`viz/_plot.py`, lines 447-459): first `states[i]` is
indexed and handed to `plot_state_2d`, then the bound `i >= num_subplots` is
checked; on overflow the axis is removed, otherwise the title is set when
titles were given. -/
def plot_state_2d_facet_loop_body (num_subplots : ℕ) (titles_given : Bool)
    (i : ℕ) : List FacetEvent :=
  FacetEvent.index_state i ::
    (if i ≥ num_subplots then [FacetEvent.remove_axis i]
     else if titles_given then [FacetEvent.set_title i] else [])

/-- Effect trace of `plot_state_2d_facet` over a `g1 × g2` axis grid when the
leading axis of `states` has `num_subplots` entries. -/
def plot_state_2d_facet_trace (g1 g2 num_subplots : ℕ) (titles_given : Bool) :
    List FacetEvent :=
  ((List.range (g1 * g2)).map
    (plot_state_2d_facet_loop_body num_subplots titles_given)).flatten

/-- The body of the loop over the flattened axis grid in
`plot_spatio_temporal_facet` (`viz/_plot.py`, lines 301-316): identical
control flow, with `trjs[i]` handed to `plot_spatio_temporal` before the
bounds check. -/
def plot_spatio_temporal_facet_loop_body (num_subplots : ℕ)
    (titles_given : Bool) (i : ℕ) : List FacetEvent :=
  FacetEvent.index_state i ::
    (if i ≥ num_subplots then [FacetEvent.remove_axis i]
     else if titles_given then [FacetEvent.set_title i] else [])

/-- Effect trace of `plot_spatio_temporal_facet` over a `g1 × g2` axis grid
when the leading axis of the (possibly channel-transposed) `trjs` has
`num_subplots` entries. -/
def plot_spatio_temporal_facet_trace (g1 g2 num_subplots : ℕ)
    (titles_given : Bool) : List FacetEvent :=
  ((List.range (g1 * g2)).map
    (plot_spatio_temporal_facet_loop_body num_subplots titles_given)).flatten

/-- For contrast, the guarded loop body of `plot_state_1d_facet`
(`viz/_plot.py`, lines 132-145), which checks `i < num_batches` before
indexing `states[i]`. -/
def plot_state_1d_facet_loop_body (num_batches : ℕ) (titles_given : Bool)
    (i : ℕ) : List FacetEvent :=
  if i < num_batches then
    FacetEvent.index_state i ::
      (if titles_given then [FacetEvent.set_title i] else [])
  else [FacetEvent.remove_axis i]

/-- A rank-2 real array (channels × space), with its shape carried
explicitly; entries outside the shape are irrelevant. -/
structure Arr2 where
  shape0 : ℕ
  shape1 : ℕ
  data : ℕ → ℕ → ℚ

/-- A rank-3 real array (time × channels × space), with its shape carried
explicitly. -/
structure Arr3 where
  shape0 : ℕ
  shape1 : ℕ
  shape2 : ℕ
  data : ℕ → ℕ → ℕ → ℚ

/-- Modelled from the spec: `wrap_bc` (in `_utils.py`, not under `src/`)
applies the periodic wrap-around at the presentation boundary: for a
(channels × space) state it appends one extra spatial entry repeating the
first, so a spatial axis of `N` points becomes `N + 1`. -/
def wrap_bc (state : Arr2) : Arr2 :=
  ⟨state.shape0, state.shape1 + 1,
   fun c j => if j < state.shape1 then state.data c j else state.data c 0⟩

/-- `jax.vmap(wrap_bc)` over the leading time axis of a trajectory, as in
`plot_spatio_temporal` (`viz/_plot.py`, line 196). -/
def vmap_wrap_bc (trj : Arr3) : Arr3 :=
  ⟨trj.shape0, trj.shape1, trj.shape2 + 1,
   fun t c j =>
     (wrap_bc ⟨trj.shape1, trj.shape2, fun c2 j2 => trj.data t c2 j2⟩).data c j⟩

/-- The spatial plot range computed by `plot_spatio_temporal`
(`viz/_plot.py`, lines 196-202): the trajectory is boundary-wrapped, then the
range is `(0, domain_extent)` when a domain extent is given and
`(0, trj_wrapped.shape[1])` otherwise. -/
def plot_spatio_temporal_space_range (trj : Arr3)
    (domain_extent : Option ℚ) : ℚ × ℚ :=
  let trj_wrapped := vmap_wrap_bc trj
  match domain_extent with
  | some extent => (0, extent)
  | none => (0, (trj_wrapped.shape1 : ℚ))

/-- Claim C1: constructing the fixed-three-channel Belousov–Zhabotinsky
nonlinear evaluator fails with a configuration error at construction time
exactly when the channel count differs from 3, and succeeds when it is 3. -/
theorem bz_nonlin_fun_requires_three_channels (num_spatial_dims : ℕ)
    (num_points : ℕ) (num_channels : ℕ) (dealiasing_fraction : ℚ) :
    (∃ f, BelousovZhabotinskyNonlinearFun.init num_spatial_dims num_points
        num_channels dealiasing_fraction = Except.ok f) ↔ num_channels = 3 := by
  unfold BelousovZhabotinskyNonlinearFun.init
  by_cases h : num_channels = 3
  · simp [h]
  · simp [h]

/-- Claim C2 counterexample: with every keyword argument left at its default,
the Fisher–KPP preset's dealiasing cutoff fraction is not 1/2. -/
theorem fisher_kpp_default_dealiasing_fraction_not_half :
    (FisherKPP.init 1 1 64 (1 / 100) none none none none
        none).1.dealiasing_fraction ≠ 1 / 2 := by
  norm_num [FisherKPP.init]

/-- Claim C2 (amended): the Allen–Cahn and Belousov–Zhabotinsky presets, whose
nonlinearities are cubic, default the dealiasing cutoff fraction to 1/2; the
Fisher–KPP preset, whose nonlinearity is quadratic, defaults it to 2/3. -/
theorem preset_default_dealiasing_fractions (num_spatial_dims : ℕ)
    (domain_extent : ℚ) (num_points : ℕ) (dt : ℚ) :
    (AllenCahn.init num_spatial_dims domain_extent num_points dt none none
        none none none none none).1.dealiasing_fraction = 1 / 2
    ∧ (BelousovZhabotinsky.init num_spatial_dims domain_extent num_points dt
        none none none none none).1.dealiasing_fraction = 1 / 2
    ∧ (FisherKPP.init num_spatial_dims domain_extent num_points dt none none
        none none none).1.dealiasing_fraction = 2 / 3 :=
  ⟨rfl, rfl, rfl⟩

/-- Claim C3: for every 3-channel Fourier-space input, and for any dealiasing
mask and transform pair, the Belousov–Zhabotinsky evaluator performs exactly
the mandatory sequence — multiply by the dealiasing mask, inverse-transform to
physical space, apply the pointwise reaction map (channel 0:
u0+u1-u0*u1-u0^2, channel 1: u2-u1-u0*u1, channel 2: u0-u2), forward-transform
back — with no other processing. -/
theorem bz_evaluate_is_mandatory_sequence {α β : Type} {K R : Type} [Field K]
    [Field R] (mask : α → K) (irfftn : (α → K) → β → R)
    (rfftn : (β → R) → α → K) (u_hat : Fin 3 → α → K) :
    BelousovZhabotinskyNonlinearFun.evaluate mask irfftn rfftn u_hat
      = mandatory_sequence bz_pointwise_map mask irfftn rfftn u_hat := rfl

/-- Claim C4: for every derivative operator, `AllenCahn._build_linear_operator`
returns, per Fourier mode, the diffusivity times the order-2 Laplace operator
built from the derivative operator (the sum of squared single-axis operators)
plus the first-order reaction coefficient. -/
theorem allen_cahn_linear_operator_formula {D : ℕ} {α : Type} {K : Type}
    [Field K] (self : AllenCahn) (derivative_operator : Fin D → α → K)
    (k : α) :
    AllenCahn._build_linear_operator self derivative_operator k
      = (self.diffusivity : K) * build_laplace_operator derivative_operator 2 k
        + (self.first_order_coefficient : K)
    ∧ build_laplace_operator derivative_operator 2 k
      = ∑ d : Fin D, derivative_operator d k ^ 2 :=
  ⟨rfl, rfl⟩

/-- Claim C5: the Fisher–KPP preset builds its linear operator as the order-2
Laplace operator plus `r` per Fourier mode, and hands its polynomial nonlinear
evaluator the coefficient list `[0, 0, -r]`, whose pointwise polynomial map
realizes exactly `-r * u^2` — the constant and linear terms of the reaction
are folded into the linear operator. -/
theorem fisher_kpp_linear_nonlinear_split {D : ℕ} {α : Type} {K R : Type}
    [Field K] [Field R] (self : FisherKPP)
    (derivative_operator : Fin D → α → K) (k : α) (u : R) :
    FisherKPP._build_linear_operator self derivative_operator k
      = build_laplace_operator derivative_operator 2 k + (self.r : K)
    ∧ (FisherKPP._build_nonlinear_fun self).coefficients = [0, 0, -self.r]
    ∧ polynomialPointwise [0, 0, -self.r] u = -(self.r : R) * u ^ 2 := by
  refine ⟨rfl, rfl, ?_⟩
  simp [polynomialPointwise, List.enum, List.enumFrom]

/-- Claim C6: for every derivative operator and every channel `c`, channel `c`
of the Belousov–Zhabotinsky preset's linear operator equals `diffusivities[c]`
times the order-2 Laplace operator, with no zeroth- or first-order reaction
contribution added. -/
theorem bz_linear_operator_channels {D : ℕ} {α : Type} {K : Type} [Field K]
    (self : BelousovZhabotinsky) (derivative_operator : Fin D → α → K)
    (c : Fin 3) (k : α) :
    BelousovZhabotinsky._build_linear_operator self derivative_operator c k
      = (self.diffusivities c : K) * ∑ d : Fin D, derivative_operator d k ^ 2 := by
  fin_cases c <;> rfl

/-- Claim C7: each preset constructor exposes `num_circle_points` and
`circle_radius`, defaulting to 16 and 1.0 when omitted, and forwards them
unchanged to the base stepper constructor. -/
theorem presets_expose_circle_parameters (num_spatial_dims : ℕ)
    (domain_extent : ℚ) (num_points : ℕ) (dt : ℚ) (ncp : ℕ) (cr : ℚ) :
    ((AllenCahn.init num_spatial_dims domain_extent num_points dt none none
        none none none none none).2.num_circle_points = 16
      ∧ (AllenCahn.init num_spatial_dims domain_extent num_points dt none none
        none none none none none).2.circle_radius = 1
      ∧ (AllenCahn.init num_spatial_dims domain_extent num_points dt none none
        none none none (some ncp) (some cr)).2.num_circle_points = ncp
      ∧ (AllenCahn.init num_spatial_dims domain_extent num_points dt none none
        none none none (some ncp) (some cr)).2.circle_radius = cr)
    ∧ ((FisherKPP.init num_spatial_dims domain_extent num_points dt none none
        none none none).2.num_circle_points = 16
      ∧ (FisherKPP.init num_spatial_dims domain_extent num_points dt none none
        none none none).2.circle_radius = 1
      ∧ (FisherKPP.init num_spatial_dims domain_extent num_points dt none none
        none (some ncp) (some cr)).2.num_circle_points = ncp
      ∧ (FisherKPP.init num_spatial_dims domain_extent num_points dt none none
        none (some ncp) (some cr)).2.circle_radius = cr)
    ∧ ((BelousovZhabotinsky.init num_spatial_dims domain_extent num_points dt
        none none none none none).2.num_circle_points = 16
      ∧ (BelousovZhabotinsky.init num_spatial_dims domain_extent num_points dt
        none none none none none).2.circle_radius = 1
      ∧ (BelousovZhabotinsky.init num_spatial_dims domain_extent num_points dt
        none none none (some ncp) (some cr)).2.num_circle_points = ncp
      ∧ (BelousovZhabotinsky.init num_spatial_dims domain_extent num_points dt
        none none none (some ncp) (some cr)).2.circle_radius = cr) :=
  ⟨⟨rfl, rfl, rfl, rfl⟩, ⟨rfl, rfl, rfl, rfl⟩, ⟨rfl, rfl, rfl, rfl⟩⟩

/-- Claim C8: dealiasing is idempotent — applying the binary dealiasing mask
by pointwise multiplication twice yields the same Fourier-space state as
applying it once. -/
theorem dealiasing_mask_idempotent {C D : ℕ} {K : Type} [Field K]
    (num_points : ℕ) (dealiasing_fraction : ℚ)
    (u_hat : Fin C → (Fin D → ℤ) → K) :
    apply_dealiasing_mask (dealiasing_mask D num_points dealiasing_fraction)
        (apply_dealiasing_mask
          (dealiasing_mask D num_points dealiasing_fraction) u_hat)
      = apply_dealiasing_mask
          (dealiasing_mask D num_points dealiasing_fraction) u_hat := by
  funext c k
  unfold apply_dealiasing_mask dealiasing_mask
  split
  · simp
  · simp

/-- Claim C9: in `plot_state_2d_facet` and `plot_spatio_temporal_facet`,
whenever the axis grid has more cells than there are states/trajectories
along the leading axis, the out-of-bounds element (index `num_subplots`) is
indexed and plotted, and only afterwards does the `i >= num_subplots` check
remove the surplus axis: the effect trace contains the out-of-range access
immediately followed by the removal. -/
theorem facet_plots_index_before_bounds_check (g1 g2 num_subplots : ℕ)
    (titles_given : Bool) (h : num_subplots < g1 * g2) :
    [FacetEvent.index_state num_subplots, FacetEvent.remove_axis num_subplots]
        <:+: plot_state_2d_facet_trace g1 g2 num_subplots titles_given
    ∧ [FacetEvent.index_state num_subplots, FacetEvent.remove_axis num_subplots]
        <:+: plot_spatio_temporal_facet_trace g1 g2 num_subplots titles_given := by
  constructor
  · apply List.infix_of_mem_flatten
    have hbody : plot_state_2d_facet_loop_body num_subplots titles_given
          num_subplots
        = [FacetEvent.index_state num_subplots,
           FacetEvent.remove_axis num_subplots] := by
      simp [plot_state_2d_facet_loop_body]
    rw [← hbody]
    exact List.mem_map_of_mem _ (List.mem_range.mpr h)
  · apply List.infix_of_mem_flatten
    have hbody : plot_spatio_temporal_facet_loop_body num_subplots titles_given
          num_subplots
        = [FacetEvent.index_state num_subplots,
           FacetEvent.remove_axis num_subplots] := by
      simp [plot_spatio_temporal_facet_loop_body]
    rw [← hbody]
    exact List.mem_map_of_mem _ (List.mem_range.mpr h)

/-- Witness for claim C9 at a concrete input: a 2 × 2 grid with only 3 states
indexes `states[3]` and then removes the fourth axis, in both facet
functions. -/
theorem facet_plots_index_before_bounds_check_witness :
    (3 : ℕ) < 2 * 2
    ∧ ([FacetEvent.index_state 3, FacetEvent.remove_axis 3]
          <:+: plot_state_2d_facet_trace 2 2 3 false
        ∧ [FacetEvent.index_state 3, FacetEvent.remove_axis 3]
          <:+: plot_spatio_temporal_facet_trace 2 2 3 false) :=
  ⟨by decide, facet_plots_index_before_bounds_check 2 2 3 false (by decide)⟩

/-- Claim C10: when `domain_extent` is not provided, `plot_spatio_temporal`
sets the upper end of the spatial plot range to the size of axis 1 of the
boundary-wrapped trajectory — the channel count — and not to the number of
spatial points plus one. -/
theorem spatio_temporal_default_extent_is_channel_count (trj : Arr3)
    (h : trj.shape1 ≠ trj.shape2 + 1) :
    (plot_spatio_temporal_space_range trj none).2 = (trj.shape1 : ℚ)
    ∧ (plot_spatio_temporal_space_range trj none).2
        ≠ ((trj.shape2 : ℚ) + 1) := by
  refine ⟨rfl, fun hc => h ?_⟩
  have hc2 : (trj.shape1 : ℚ) = (trj.shape2 : ℚ) + 1 := hc
  exact_mod_cast hc2

/-- Witness for claim C10 at a concrete input: a trajectory of 5 time steps,
1 channel and 64 spatial points gets the default spatial extent 1 (its channel
count), not 65. -/
theorem spatio_temporal_default_extent_witness :
    ((1 : ℕ) ≠ 64 + 1)
    ∧ ((plot_spatio_temporal_space_range ⟨5, 1, 64, fun _ _ _ => 0⟩ none).2
          = ((1 : ℕ) : ℚ)
      ∧ (plot_spatio_temporal_space_range ⟨5, 1, 64, fun _ _ _ => 0⟩ none).2
          ≠ (((64 : ℕ) : ℚ) + 1)) :=
  ⟨by decide,
   spatio_temporal_default_extent_is_channel_count ⟨5, 1, 64, fun _ _ _ => 0⟩
     (by decide)⟩
